import Mathlib

/-!
Verification of the conflict early-warning core against its specification.

The development shallowly embeds the Python sources:
  * `src/preprocessing/text_cleaner.py`  (TextPreprocessor)
  * `src/models/conflict_predictor.py`   (ConflictPredictor)
  * `src/visualizations/dashboard_generator.py` (DashboardGenerator)

Floating-point scores are modelled as exact rationals (`ℚ`); text is modelled
as `List Char` with ASCII character-class semantics for the regex character
classes `\w`, `\s`, `\d`.  External libraries (nltk, sklearn, pandas) are
modelled at the granularity the repository code observes them.
-/

namespace CEWS

/-! Part: Sentiment & intensity scorer (`text_cleaner.py`) -/

/-- Model: `TextPreprocessor._calculate_risk_level` (text_cleaner.py:104-115):
`risk_score = abs(sentiment) * 0.4 + conflict_intensity * 0.6`, then the
strict-threshold chain `>0.7 → Critical, >0.5 → High, >0.3 → Medium, else Low`. -/
def calculate_risk_level (sentiment conflict_intensity : ℚ) : String :=
  let risk_score := |sentiment| * (4/10) + conflict_intensity * (6/10)
  if risk_score > 7/10 then "Critical"
  else if risk_score > 5/10 then "High"
  else if risk_score > 3/10 then "Medium"
  else "Low"

/-- Spec-side formula, written as the spec words it:
`risk_score = 0.4·|compound| + 0.6·conflict_intensity`. -/
def risk_score_spec (compound conflict_intensity : ℚ) : ℚ :=
  (4/10) * |compound| + (6/10) * conflict_intensity

/-- Spec-side banding of a risk score: strict greater-than thresholds checked
in order `0.7, 0.5, 0.3`, first match wins. -/
def risk_band_spec (x : ℚ) : String :=
  if 7/10 < x then "Critical"
  else if 5/10 < x then "High"
  else if 3/10 < x then "Medium"
  else "Low"

/-- Rank of a risk level in the total order Low < Medium < High < Critical. -/
def riskRank : String → ℕ
  | "Medium" => 1
  | "High" => 2
  | "Critical" => 3
  | _ => 0

/-- The fixed conflict keyword list of `analyze_sentiment`
(text_cleaner.py:76-77). -/
def conflict_words : List String :=
  ["attack", "violence", "kill", "death", "protest",
   "riot", "clash", "unrest", "tension", "war"]

/-- Model: `leadMatch pat l` holds when `pat` is a leading segment of `l`. -/
def leadMatch : List Char → List Char → Bool
  | [], _ => true
  | _ :: _, [] => false
  | a :: as, b :: bs => a == b && leadMatch as bs

/-- Model: `hasSub pat l` holds when `pat` occurs contiguously inside `l`
(Python's `pat in l` substring test). -/
def hasSub (pat : List Char) : List Char → Bool
  | [] => pat.isEmpty
  | c :: t => leadMatch pat (c :: t) || hasSub pat t

/-- One keyword hit of `analyze_sentiment`: `word in text.lower()`
(text_cleaner.py:78), i.e. case-insensitive substring presence in the raw text. -/
def keywordHit (w : String) (text : List Char) : Bool :=
  hasSub w.data (text.map Char.toLower)

/-- Model: `conflict_count = sum(1 for word in conflict_words if word in text.lower())`
(text_cleaner.py:78): each keyword contributes at most once. -/
def conflict_count (text : List Char) : ℕ :=
  (conflict_words.filter (fun w => keywordHit w text)).length

/-- Model: `conflict_intensity = min(conflict_count / 5, 1.0)` (text_cleaner.py:79). -/
def conflict_intensity (text : List Char) : ℚ :=
  min ((conflict_count text : ℚ) / 5) 1

lemma leadMatch_iff (p l : List Char) :
    leadMatch p l = true ↔ ∃ r, l = p ++ r := by
  induction p generalizing l with
  | nil => simp [leadMatch]
  | cons a as ih =>
    cases l with
    | nil => simp [leadMatch]
    | cons b bs =>
      simp only [leadMatch, Bool.and_eq_true, beq_iff_eq, ih]
      constructor
      · rintro ⟨rfl, r, rfl⟩
        exact ⟨r, rfl⟩
      · rintro ⟨r, hr⟩
        injection hr with h1 h2
        exact ⟨h1.symm, r, h2⟩

lemma hasSub_iff (p l : List Char) :
    hasSub p l = true ↔ ∃ pre post, l = pre ++ p ++ post := by
  induction l with
  | nil =>
    simp only [hasSub, List.isEmpty_iff]
    constructor
    · rintro rfl
      exact ⟨[], [], rfl⟩
    · rintro ⟨pre, post, h⟩
      rcases List.append_eq_nil.mp (List.append_eq_nil.mp h.symm).1 with ⟨-, h2⟩
      exact h2
  | cons c t ih =>
    simp only [hasSub, Bool.or_eq_true, leadMatch_iff, ih]
    constructor
    · rintro (⟨r, hr⟩ | ⟨pre, post, h⟩)
      · exact ⟨[], r, by simpa using hr⟩
      · exact ⟨c :: pre, post, by simp [h]⟩
    · rintro ⟨pre, post, h⟩
      cases pre with
      | nil => exact Or.inl ⟨post, by simpa using h⟩
      | cons d pre' =>
        injection h with h1 h2
        exact Or.inr ⟨pre', post, h2⟩

instance decSubstr (p l : List Char) : Decidable (∃ pre post, l = pre ++ p ++ post) :=
  decidable_of_iff (hasSub p l = true) (hasSub_iff p l)

/-- Spec-side keyword count: the number of keywords of the fixed list that are
present as a contiguous segment of the lowercased raw text. -/
def spec_keyword_count (text : List Char) : ℕ :=
  conflict_words.countP
    (fun w => decide (∃ pre post, text.map Char.toLower = pre ++ w.data ++ post))

/-! Part: Text normalizer (`TextPreprocessor.clean_text`, text_cleaner.py:32-61)

The regex character classes are modelled over ASCII: `\w` is alphanumeric or
underscore, `\s` is whitespace, `\d` is a decimal digit. -/

/-- ASCII model of the regex class `\w`. -/
def isWordChar (c : Char) : Bool := c.isAlphanum || c == '_'

/-- ASCII model of the regex class `\s`. -/
def isSpaceChar (c : Char) : Bool := c.isWhitespace

/-- The literal `http` searched by the URL pattern `http\S+` (also covering
the `https\S+` alternative, which can only match where `http\S+` does). -/
def httpChars : List Char := ['h', 't', 't', 'p']

/-- The literal `www` searched by the URL pattern `www\S+`. -/
def wwwChars : List Char := ['w', 'w', 'w']

/-- Model: `stripLead p l` returns `some r` when `l = p ++ r`, else `none`. -/
def stripLead : List Char → List Char → Option (List Char)
  | [], l => some l
  | _ :: _, [] => none
  | a :: as, b :: bs => if a == b then stripLead as bs else none

/-- Length of the maximal leading run of non-whitespace characters,
the text consumed by a greedy `\S+` (zero when `\S+` cannot match). -/
def nonSpaceRun (l : List Char) : ℕ :=
  (l.takeWhile (fun c => !isSpaceChar c)).length

/-- Match of `www\S+` at the head of `l`: returns the match length. -/
def wwwMatch (l : List Char) : Option ℕ :=
  match stripLead wwwChars l with
  | some rest => if 0 < nonSpaceRun rest then some (3 + nonSpaceRun rest) else none
  | none => none

/-- Match of `http\S+|www\S+|https\S+` at the head of `l` (text_cleaner.py:41):
alternatives are tried left to right; `https\S+` is subsumed by `http\S+`. -/
def urlMatch (l : List Char) : Option ℕ :=
  match stripLead httpChars l with
  | some rest => if 0 < nonSpaceRun rest then some (4 + nonSpaceRun rest) else wwwMatch l
  | none => wwwMatch l

/-- Match of `@\w+` at the head of `l` (text_cleaner.py:44). -/
def mentionMatch (l : List Char) : Option ℕ :=
  match l with
  | c :: rest =>
    if c = '@' then
      if 0 < (rest.takeWhile isWordChar).length
      then some (1 + (rest.takeWhile isWordChar).length) else none
    else none
  | [] => none

/-- Model: `re.sub(pattern, '', text)` driver: scan left to right, delete each
leftmost match and resume after it.  Structural recursion on a fuel that is
always instantiated with the text length; every matcher here consumes at
least one character per match, so `List.drop (n - 1) t` is exactly the text
after the match `c :: t |>.drop n`. -/
def scrubF (m : List Char → Option ℕ) : ℕ → List Char → List Char
  | 0, l => l
  | _ + 1, [] => []
  | f + 1, c :: t =>
    match m (c :: t) with
    | some n => scrubF m f (List.drop (n - 1) t)
    | none => c :: scrubF m f t

/-- Remove every match of `m` from `l` (replacement is the empty string). -/
def scrub (m : List Char → Option ℕ) (l : List Char) : List Char :=
  scrubF m l.length l

/-- Model: `re.sub(r'#', '', text)` (text_cleaner.py:45): drop the `#` marker,
keeping the hashtag text. -/
def stripHash (l : List Char) : List Char := l.filter (fun c => !(c == '#'))

/-- Model: `re.sub(r'[^\w\s]', ' ', text)` (text_cleaner.py:48): every character
that is neither a word character nor whitespace becomes a space. -/
def punctToSpace (l : List Char) : List Char :=
  l.map (fun c => if isWordChar c || isSpaceChar c then c else ' ')

/-- Model: `re.sub(r'\d+', '', text)` (text_cleaner.py:49): runs of digits are
deleted, i.e. every digit character is deleted. -/
def stripDigits (l : List Char) : List Char := l.filter (fun c => !c.isDigit)

/-- Model: `emoji.demojize` (text_cleaner.py:52).  It runs after `[^\w\s]` has been
replaced by spaces, so the text contains no emoji glyph any more and
`demojize` is the identity. -/
def demojize (l : List Char) : List Char := l

/-- Model: `word_tokenize` (text_cleaner.py:55).  At this point the text consists of
word characters and whitespace only, on which NLTK's tokenizer coincides with
whitespace splitting.  Fueled structural recursion (fuel = text length). -/
def tokenizeF : ℕ → List Char → List (List Char)
  | 0, _ => []
  | _ + 1, [] => []
  | f + 1, c :: t =>
    if isSpaceChar c then tokenizeF f t
    else (c :: t.takeWhile (fun d => !isSpaceChar d)) ::
      tokenizeF f (t.dropWhile (fun d => !isSpaceChar d))

/-- Whitespace tokenization of the cleaned text. -/
def tokenize (l : List Char) : List (List Char) := tokenizeF l.length l

/-- The NLTK English stopword corpus, `stopwords.words('english')`
(text_cleaner.py:18). -/
def nltk_stopwords : List String :=
  ["i", "me", "my", "myself", "we", "our", "ours", "ourselves", "you",
   "you\x27re", "you\x27ve", "you\x27ll", "you\x27d", "your", "yours",
   "yourself", "yourselves", "he", "him", "his", "himself", "she",
   "she\x27s", "her", "hers", "herself", "it", "it\x27s", "its", "itself",
   "they", "them", "their", "theirs", "themselves", "what", "which", "who",
   "whom", "this", "that", "that\x27ll", "these", "those", "am", "is",
   "are", "was", "were", "be", "been", "being", "have", "has", "had",
   "having", "do", "does", "did", "doing", "a", "an", "the", "and", "but",
   "if", "or", "because", "as", "until", "while", "of", "at", "by", "for",
   "with", "about", "against", "between", "into", "through", "during",
   "before", "after", "above", "below", "to", "from", "up", "down", "in",
   "out", "on", "off", "over", "under", "again", "further", "then", "once",
   "here", "there", "when", "where", "why", "how", "all", "any", "both",
   "each", "few", "more", "most", "other", "some", "such", "no", "nor",
   "not", "only", "own", "same", "so", "than", "too", "very", "s", "t",
   "can", "will", "just", "don", "don\x27t", "should", "should\x27ve",
   "now", "d", "ll", "m", "o", "re", "ve", "y", "ain", "aren",
   "aren\x27t", "couldn", "couldn\x27t", "didn", "didn\x27t", "doesn",
   "doesn\x27t", "hadn", "hadn\x27t", "hasn", "hasn\x27t", "haven",
   "haven\x27t", "isn", "isn\x27t", "ma", "mightn", "mightn\x27t",
   "mustn", "mustn\x27t", "needn", "needn\x27t", "shan", "shan\x27t",
   "shouldn", "shouldn\x27t", "wasn", "wasn\x27t", "weren", "weren\x27t",
   "won", "won\x27t", "wouldn", "wouldn\x27t"]

/-- The conflict-related allowlist kept out of the stopword set
(`TextPreprocessor.__init__`, text_cleaner.py:23-27). -/
def conflict_keywords : List String :=
  ["conflict", "war", "peace", "violence", "attack", "protest",
   "demonstration", "riot", "clash", "tension", "security",
   "unrest", "ceasefire", "mediation", "negotiation"]

/-- Model: `self.stop_words = set(stopwords.words('english')) - self.conflict_keywords`
(text_cleaner.py:30). -/
def stop_words : List String :=
  nltk_stopwords.filter (fun w => !(conflict_keywords.contains w))

/-- The filter of the token comprehension (text_cleaner.py:58-59):
`token not in self.stop_words and len(token) > 2`. -/
def keepToken (t : List Char) : Bool :=
  !(stop_words.contains (String.mk t)) && decide (2 < t.length)

/-- Join surviving tokens with single spaces (text_cleaner.py:61). -/
def joinSp (ts : List (List Char)) : List Char := List.intercalate [' '] ts

/-- Model: `TextPreprocessor.clean_text` (text_cleaner.py:32-61), parametrized by
the WordNet lemmatizer `lem` (an external NLTK resource; it returns its input
unchanged on any word that matches none of its morphy rules).  Pipeline order
follows the source: lowercase, URL removal, mention removal, `#` removal,
punctuation to space, digit removal, demojize, tokenize, stopword/length
filter, lemmatize, join. -/
def clean_text (lem : List Char → List Char) (text : List Char) : List Char :=
  joinSp
    (((tokenize
        (demojize
          (stripDigits
            (punctToSpace
              (stripHash
                (scrub mentionMatch
                  (scrub urlMatch
                    (text.map Char.toLower)))))))).filter keepToken).map lem)

/-! Part: Risk classifier (`ConflictPredictor`, conflict_predictor.py)

The sklearn estimators and the `StandardScaler` are external library objects;
the repository code observes an estimator through `predict`/`predict_proba`
and a fitted scaler through `transform`, so they are modelled by exactly
those capabilities.  Feature rows are rational vectors, labels are strings. -/

/-- A fitted estimator as observed by the repository: hard labels and class
probabilities for a matrix of feature rows. -/
structure Estimator where
  predictF : List (List ℚ) → List String
  probaF : List (List ℚ) → List (List ℚ)

/-- Model: `ConflictPredictor` state: `self.model` starts as `None`
(conflict_predictor.py:17) and `self.scaler` starts unfitted
(conflict_predictor.py:18); a fitted scaler is its `transform` map. -/
structure ConflictPredictor where
  model : Option Estimator
  scaler : Option (List (List ℚ) → List (List ℚ))

/-- A fresh `ConflictPredictor()` (conflict_predictor.py:15-19). -/
def initPredictor : ConflictPredictor := { model := none, scaler := none }

/-- Model: `ConflictPredictor.train` (conflict_predictor.py:73-93):
`fit_transform` fits the scaler on the training features and transforms them;
the selected strategy (grid search or a plain `fit`) is the external
`fitModel`, fitted on the scaled training data; the fitted estimator is
stored in `self.model`. -/
def train (fitScaler : List (List ℚ) → (List (List ℚ) → List (List ℚ)))
    (fitModel : List (List ℚ) → List String → Estimator)
    (p : ConflictPredictor) (X : List (List ℚ)) (y : List String) :
    ConflictPredictor :=
  let tr := fitScaler X
  { p with scaler := some tr, model := some (fitModel (tr X) y) }

/-- Model: `ConflictPredictor.predict` (conflict_predictor.py:102-111): raise
`ValueError("Model not trained. Call train() first.")` when `self.model is
None`; otherwise transform `X` with the stored scaler and return hard labels
and probabilities.  (The unfitted-scaler branch models sklearn's
`NotFittedError`; it is unreachable from `predict` because the `model is
None` check fires first on any untrained instance.) -/
def predict (p : ConflictPredictor) (X : List (List ℚ)) :
    Except String (List String × List (List ℚ)) :=
  match p.model with
  | none => .error ("Model not trained. Call train() first.")
  | some m =>
    match p.scaler with
    | none => .error ("This StandardScaler instance is not fitted yet")
    | some tr => .ok (m.predictF (tr X), m.probaF (tr X))

/-! Part: Early-warning detector & report (`DashboardGenerator`,
dashboard_generator.py) -/

/-- One scored record of the batch `DataFrame`, with the columns the
dashboard generator reads. -/
structure Row where
  date : ℤ
  vader_compound : ℚ
  conflict_intensity : ℚ
  risk_level : String
  region : String
deriving DecidableEq

/-- The interpolated payload of a warning's f-string message: the constructor
carries exactly the values the source interpolates
(dashboard_generator.py:238, 249). -/
inductive WarningMsg where
  | sentimentDrop (recent previous : ℚ)
  | intensityCluster (count : ℕ)
deriving DecidableEq

/-- A warning dict (dashboard_generator.py:235-240, 246-251). -/
structure EWarning where
  wtype : String
  severity : String
  message : WarningMsg
  suggested_action : String
deriving DecidableEq

/-- Stable insertion: `a` goes after every element it does not have to
precede (`le b a` means `b` may stay before `a`). -/
def insertStable (le : α → α → Bool) (a : α) : List α → List α
  | [] => [a]
  | b :: t => if le b a then b :: insertStable le a t else a :: b :: t

/-- Stable sort by repeated insertion: elements that compare equal keep
their input order. -/
def stableSortBy (le : α → α → Bool) (l : List α) : List α :=
  l.foldl (fun acc a => insertStable le a acc) []

/-- Model: `df.sort_values('date')` (dashboard_generator.py:230), ascending; ties
keep input order in this model. -/
def sortByDate (df : List Row) : List Row :=
  stableSortBy (fun b a => decide (b.date ≤ a.date)) df

/-- Model: `.tail(n)`: the last `n` elements. -/
def lastN (n : ℕ) (l : List α) : List α := l.drop (l.length - n)

/-- Mean of a series (`pandas .mean()`); the empty case stands in for NaN,
whose comparisons are all false, matching `0 < 0 - 3/10` being false. -/
def meanQ (l : List ℚ) : ℚ := if l.length = 0 then 0 else l.sum / l.length

/-- Model: `df_sorted['vader_compound'].tail(7).mean()` (dashboard_generator.py:231). -/
def recentMean (df : List Row) : ℚ :=
  meanQ ((lastN 7 (sortByDate df)).map (·.vader_compound))

/-- Model: `df_sorted['vader_compound'].tail(14).head(7).mean()`
(dashboard_generator.py:232): records 8-14 back from the end. -/
def prevMean (df : List Row) : ℚ :=
  meanQ (((lastN 14 (sortByDate df)).take 7).map (·.vader_compound))

/-- Model: `len(df[df['conflict_intensity'] > 0.7])` (dashboard_generator.py:244). -/
def highIntensityCount (df : List Row) : ℕ :=
  (df.filter (fun r => decide ((7:ℚ)/10 < r.conflict_intensity))).length

/-- Model: `DashboardGenerator._generate_early_warnings`
(dashboard_generator.py:224-253): the sentiment-drop rule then the
intensity-cluster rule; both columns are always present in this model. -/
def generate_early_warnings (df : List Row) : List EWarning :=
  let w1 :=
    if recentMean df < prevMean df - 3/10 then
      [{ wtype := "sentiment_drop", severity := "high",
         message := .sentimentDrop (recentMean df) (prevMean df),
         suggested_action := "Monitor social media for potential unrest triggers" }]
    else []
  let w2 :=
    if 10 < highIntensityCount df then
      [{ wtype := "high_intensity_cluster", severity := "critical",
         message := .intensityCluster (highIntensityCount df),
         suggested_action := "Deploy rapid response teams to affected regions" }]
    else []
  w1 ++ w2

/-- Model: `x.isin(['High', 'Critical'])` on the `risk_level` column
(dashboard_generator.py:169, 183, 209). -/
def isHighRisk (r : Row) : Bool := r.risk_level == "High" || r.risk_level == "Critical"

/-- The `summary` block of the monthly report (dashboard_generator.py:167-177). -/
structure Summary where
  total_tweets_analyzed : ℕ
  high_risk_tweets : ℕ
  high_risk_percentage : ℚ
  average_sentiment : ℚ
  average_conflict_intensity : ℚ
deriving DecidableEq

/-- Model: `report_data['summary']` (dashboard_generator.py:171-177); the percentage
is `high / total * 100` guarded by `if total_tweets > 0 else 0`. -/
def summaryOf (df : List Row) : Summary :=
  { total_tweets_analyzed := df.length
    high_risk_tweets := (df.filter isHighRisk).length
    high_risk_percentage :=
      if 0 < df.length then
        ((df.filter isHighRisk).length : ℚ) / df.length * 100
      else 0
    average_sentiment := meanQ (df.map (·.vader_compound))
    average_conflict_intensity := meanQ (df.map (·.conflict_intensity)) }

/-- C1: for compound sentiment `s ∈ [-1,1]` and conflict intensity
`c ∈ [0,1]`, the risk level is exactly the spec's banding of
`0.4·|s| + 0.6·c` by strict thresholds `0.7 / 0.5 / 0.3` checked in order,
and a score exactly on a boundary falls to the lower band. -/
theorem risk_level_matches_spec (s c : ℚ)
    (_hs1 : -1 ≤ s) (_hs2 : s ≤ 1) (_hc1 : 0 ≤ c) (_hc2 : c ≤ 1) :
    calculate_risk_level s c = risk_band_spec (risk_score_spec s c)
    ∧ (risk_score_spec s c = 7/10 → calculate_risk_level s c = "High")
    ∧ (risk_score_spec s c = 5/10 → calculate_risk_level s c = "Medium")
    ∧ (risk_score_spec s c = 3/10 → calculate_risk_level s c = "Low") := by
  have key : |s| * (4/10) + c * (6/10) = risk_score_spec s c := by
    unfold risk_score_spec; ring
  refine ⟨?_, ?_, ?_, ?_⟩
  · simp only [calculate_risk_level, risk_band_spec, key, gt_iff_lt]
  · intro h
    simp only [calculate_risk_level, key, h, gt_iff_lt]
    norm_num
  · intro h
    simp only [calculate_risk_level, key, h, gt_iff_lt]
    norm_num
  · intro h
    simp only [calculate_risk_level, key, h, gt_iff_lt]
    norm_num

/-- Witness for C1 at `s = 1`, `c = 1/2` (risk score exactly `0.7`). -/
theorem risk_level_matches_spec_witness :
    calculate_risk_level 1 (1/2) = risk_band_spec (risk_score_spec 1 (1/2))
    ∧ (risk_score_spec 1 (1/2) = 7/10 → calculate_risk_level 1 (1/2) = "High")
    ∧ (risk_score_spec 1 (1/2) = 5/10 → calculate_risk_level 1 (1/2) = "Medium")
    ∧ (risk_score_spec 1 (1/2) = 3/10 → calculate_risk_level 1 (1/2) = "Low") :=
  risk_level_matches_spec 1 (1/2) (by norm_num) (by norm_num) (by norm_num) (by norm_num)

/-- C6: with `|compound|` fixed, the risk level is monotone in
`conflict_intensity` (in the order Low < Medium < High < Critical), and the
boundary scores `0.3`, `0.5`, `0.7` resolve to the lower band. -/
theorem risk_level_monotone_and_boundaries :
    (∀ s c1 c2 : ℚ, 0 ≤ c1 → c1 ≤ c2 → c2 ≤ 1 →
      riskRank (calculate_risk_level s c1) ≤ riskRank (calculate_risk_level s c2))
    ∧ calculate_risk_level 0 (1/2) = "Low"
    ∧ calculate_risk_level (1/2) (1/2) = "Medium"
    ∧ calculate_risk_level 1 (1/2) = "High" := by
  refine ⟨?_, ?_, ?_, ?_⟩
  · intro s c1 c2 h0 h12 h21
    have hsc : |s| * (4/10) + c1 * (6/10) ≤ |s| * (4/10) + c2 * (6/10) :=
      add_le_add_left (mul_le_mul_of_nonneg_right h12 (by norm_num)) _
    simp only [calculate_risk_level, gt_iff_lt]
    split_ifs <;> first | decide | (exfalso; linarith)
  · have habs : |(0:ℚ)| = 0 := abs_zero
    simp only [calculate_risk_level, habs, gt_iff_lt]
    norm_num
  · have habs : |(1:ℚ)/2| = 1/2 := abs_of_nonneg (by norm_num)
    simp only [calculate_risk_level, habs, gt_iff_lt]
    norm_num
  · have habs : |(1:ℚ)| = 1 := abs_one
    simp only [calculate_risk_level, habs, gt_iff_lt]
    norm_num

/-- Witness for C6 at `s = 0`, `c1 = 0`, `c2 = 1`. -/
theorem risk_level_monotone_witness :
    riskRank (calculate_risk_level 0 0) ≤ riskRank (calculate_risk_level 0 1) :=
  risk_level_monotone_and_boundaries.1 0 0 1 (by norm_num) (by norm_num) (by norm_num)

/-- C5: `conflict_intensity` is `min(k/5, 1)` where `k` counts the fixed
keywords occurring as case-insensitive substrings of the raw text, and the
scenario text scores at least `0.4` (hits: protest, violence). -/
theorem conflict_intensity_matches_spec :
    (∀ text : List Char,
      conflict_intensity text = min ((spec_keyword_count text : ℚ) / 5) 1)
    ∧ (2:ℚ)/5 ≤ conflict_intensity ("Protest planned tomorrow, violence expected".data) := by
  constructor
  · intro text
    have hcnt : conflict_count text = spec_keyword_count text := by
      unfold conflict_count spec_keyword_count
      rw [List.countP_eq_length_filter]
      congr 1
      apply List.filter_congr
      intro w _
      rw [Bool.eq_iff_iff, decide_eq_true_eq]
      simpa only [keywordHit] using hasSub_iff w.data (text.map Char.toLower)
    unfold conflict_intensity
    rw [hcnt]
  · have hc : conflict_count ("Protest planned tomorrow, violence expected".data) = 2 := by
      decide
    simp only [conflict_intensity, hc]
    rw [min_def]
    norm_num

/-- C2: `predict` on a fresh predictor fails with exactly the
model-not-trained error (and with no other error), and after `train` it
scales the input with the scaler fitted on the training data and returns
hard labels together with class probabilities. -/
theorem predict_untrained_error_and_trained_output :
    ∀ (fitScaler : List (List ℚ) → (List (List ℚ) → List (List ℚ)))
      (fitModel : List (List ℚ) → List String → Estimator)
      (X : List (List ℚ)) (y : List String) (X' : List (List ℚ)),
      predict initPredictor X' = .error ("Model not trained. Call train() first.")
      ∧ predict (train fitScaler fitModel initPredictor X y) X' =
          .ok ((fitModel (fitScaler X X) y).predictF (fitScaler X X'),
               (fitModel (fitScaler X X) y).probaF (fitScaler X X')) := by
  intro fitScaler fitModel X y X'
  exact ⟨rfl, rfl⟩

/-- C10: the high-risk percentage of the report summary is guarded by a
`total > 0` check: it is `0` on an empty batch, and the ratio otherwise. -/
theorem empty_batch_high_risk_percentage_zero :
    (∀ df : List Row, df.length = 0 → (summaryOf df).high_risk_percentage = 0)
    ∧ (∀ df : List Row, 0 < df.length →
        (summaryOf df).high_risk_percentage =
          ((df.filter isHighRisk).length : ℚ) / df.length * 100) := by
  constructor
  · intro df h
    simp [summaryOf, h]
  · intro df h
    simp [summaryOf, h]

/-- Witness for C10 at the empty batch. -/
theorem empty_batch_high_risk_percentage_zero_witness :
    (List.length ([] : List Row) = 0)
    ∧ (summaryOf ([] : List Row)).high_risk_percentage = 0 :=
  ⟨rfl, empty_batch_high_risk_percentage_zero.1 [] rfl⟩

/-- C3: on a batch of at least 14 records, a High-severity `sentiment_drop`
warning carrying both window means is emitted exactly when
`recent - previous < -0.3`, where `recent`/`previous` are the means of the
last 7 and the preceding 7 records of the date-sorted batch. -/
theorem sentiment_drop_warning_iff (df : List Row) (_h : 14 ≤ df.length) :
    (generate_early_warnings df).countP (fun w => w.wtype == "sentiment_drop")
      = (if recentMean df - prevMean df < -(3/10) then 1 else 0)
    ∧ (recentMean df - prevMean df < -(3/10) →
        { wtype := "sentiment_drop", severity := "high",
          message := .sentimentDrop (recentMean df) (prevMean df),
          suggested_action := "Monitor social media for potential unrest triggers" }
          ∈ generate_early_warnings df) := by
  unfold generate_early_warnings
  by_cases h1 : recentMean df < prevMean df - 3/10
  · have h1' : recentMean df - prevMean df < -(3/10) := by linarith
    by_cases h2 : 10 < highIntensityCount df <;>
      simp [h1, h2, h1', List.countP_append, List.countP_cons]
  · have h1' : ¬ (recentMean df - prevMean df < -(3/10)) := fun hc => h1 (by linarith)
    by_cases h2 : 10 < highIntensityCount df <;>
      simp [h1, h2, h1', List.countP_append, List.countP_cons]

/-- The 14-record scenario batch: seven oldest records with compound `-0.1`,
seven newest with `-0.5` (equal dates; the stable sort keeps input order). -/
def batchC3 : List Row :=
  [⟨0, -(1/10), 0, "Low", "A"⟩, ⟨0, -(1/10), 0, "Low", "A"⟩,
   ⟨0, -(1/10), 0, "Low", "A"⟩, ⟨0, -(1/10), 0, "Low", "A"⟩,
   ⟨0, -(1/10), 0, "Low", "A"⟩, ⟨0, -(1/10), 0, "Low", "A"⟩,
   ⟨0, -(1/10), 0, "Low", "A"⟩, ⟨0, -(1/2), 0, "Low", "A"⟩,
   ⟨0, -(1/2), 0, "Low", "A"⟩, ⟨0, -(1/2), 0, "Low", "A"⟩,
   ⟨0, -(1/2), 0, "Low", "A"⟩, ⟨0, -(1/2), 0, "Low", "A"⟩,
   ⟨0, -(1/2), 0, "Low", "A"⟩, ⟨0, -(1/2), 0, "Low", "A"⟩]

/-- Witness for C3: the scenario batch triggers the sentiment-drop warning. -/
theorem sentiment_drop_warning_witness :
    (14 ≤ batchC3.length)
    ∧ { wtype := "sentiment_drop", severity := "high",
        message := .sentimentDrop (recentMean batchC3) (prevMean batchC3),
        suggested_action := "Monitor social media for potential unrest triggers" }
        ∈ generate_early_warnings batchC3 := by
  have hsort : sortByDate batchC3 = batchC3 := by
    simp [batchC3, sortByDate, stableSortBy, insertStable]
  have hr : recentMean batchC3 = -(1/2) := by
    rw [recentMean, hsort]
    norm_num [batchC3, lastN, meanQ]
  have hp : prevMean batchC3 = -(1/10) := by
    rw [prevMean, hsort]
    norm_num [batchC3, lastN, meanQ]
  refine ⟨by decide, (sentiment_drop_warning_iff batchC3 (by decide)).2 ?_⟩
  rw [hr, hp]
  norm_num

/-- C4: a Critical-severity `high_intensity_cluster` warning naming the
count is emitted exactly when more than 10 records have conflict intensity
strictly above `0.7`. -/
theorem intensity_cluster_warning_iff (df : List Row) :
    (generate_early_warnings df).countP (fun w => w.wtype == "high_intensity_cluster")
      = (if 10 < highIntensityCount df then 1 else 0)
    ∧ (10 < highIntensityCount df →
        { wtype := "high_intensity_cluster", severity := "critical",
          message := .intensityCluster (highIntensityCount df),
          suggested_action := "Deploy rapid response teams to affected regions" }
          ∈ generate_early_warnings df) := by
  unfold generate_early_warnings
  by_cases h1 : recentMean df < prevMean df - 3/10 <;>
    by_cases h2 : 10 < highIntensityCount df <;>
      simp [h1, h2, List.countP_append, List.countP_cons]

/-- The scenario batch for C4: eleven records at intensity `0.9`, one below
`0.7`. -/
def batchC4 : List Row :=
  [⟨0, 0, 9/10, "Low", "A"⟩, ⟨0, 0, 9/10, "Low", "A"⟩, ⟨0, 0, 9/10, "Low", "A"⟩,
   ⟨0, 0, 9/10, "Low", "A"⟩, ⟨0, 0, 9/10, "Low", "A"⟩, ⟨0, 0, 9/10, "Low", "A"⟩,
   ⟨0, 0, 9/10, "Low", "A"⟩, ⟨0, 0, 9/10, "Low", "A"⟩, ⟨0, 0, 9/10, "Low", "A"⟩,
   ⟨0, 0, 9/10, "Low", "A"⟩, ⟨0, 0, 9/10, "Low", "A"⟩, ⟨0, 0, 0, "Low", "A"⟩]

/-- Witness for C4: the scenario batch triggers the intensity-cluster
warning. -/
theorem intensity_cluster_warning_witness :
    10 < highIntensityCount batchC4
    ∧ { wtype := "high_intensity_cluster", severity := "critical",
        message := .intensityCluster (highIntensityCount batchC4),
        suggested_action := "Deploy rapid response teams to affected regions" }
        ∈ generate_early_warnings batchC4 := by
  have d1 : (decide ((7:ℚ)/10 < 9/10)) = true := decide_eq_true (by norm_num)
  have d2 : (decide ((7:ℚ)/10 < 0)) = false := decide_eq_false (by norm_num)
  have hcnt : highIntensityCount batchC4 = 11 := by
    simp [highIntensityCount, batchC4, List.filter, d1, d2]
  have h10 : 10 < highIntensityCount batchC4 := by rw [hcnt]; norm_num
  exact ⟨h10, (intensity_cluster_warning_iff batchC4).2 h10⟩

lemma map_id_of_fix {α : Type} (g : α → α) :
    ∀ l : List α, (∀ a ∈ l, g a = a) → l.map g = l := by
  intro l
  induction l with
  | nil => intro _; rfl
  | cons a t ih =>
    intro h
    simp only [List.map_cons]
    rw [h a (List.mem_cons_self a t), ih (fun b hb => h b (List.mem_cons_of_mem a hb))]

lemma scrubF_eq_self (m : List Char → Option ℕ) :
    ∀ (f : ℕ) (l : List Char), (∀ s, s <:+ l → m s = none) → scrubF m f l = l := by
  intro f
  induction f with
  | zero => intro l _; rfl
  | succ f ih =>
    intro l h
    cases l with
    | nil => rfl
    | cons c t =>
      have h0 : m (c :: t) = none := h _ (List.suffix_refl _)
      simp only [scrubF, h0]
      rw [ih t (fun s hs => h s (hs.trans (List.suffix_cons c t)))]

lemma scrub_eq_self (m : List Char → Option ℕ) (l : List Char)
    (h : ∀ s, s <:+ l → m s = none) : scrub m l = l :=
  scrubF_eq_self m l.length l h

lemma stripLead_eq_some_iff (p : List Char) :
    ∀ l r : List Char, stripLead p l = some r ↔ l = p ++ r := by
  induction p with
  | nil =>
    intro l r
    simp [stripLead]
  | cons a as ih =>
    intro l r
    cases l with
    | nil => simp [stripLead]
    | cons b bs =>
      simp only [stripLead]
      by_cases hab : (a == b) = true
      · have hab' : a = b := beq_iff_eq.mp hab
        subst hab'
        simp [hab, ih bs r]
      · rw [if_neg hab]
        constructor
        · intro hc
          cases hc
        · intro hc
          injection hc with h1 h2
          exact absurd (beq_iff_eq.mpr h1.symm) hab

lemma stripLead_none_of_not_sub (p out s : List Char)
    (h : hasSub p out = false) (hs : s <:+ out) : stripLead p s = none := by
  rcases hsl : stripLead p s with _ | r
  · rfl
  · exfalso
    have hdec : s = p ++ r := (stripLead_eq_some_iff p s r).mp hsl
    rcases hs with ⟨pre, hpre⟩
    have htrue : hasSub p out = true :=
      (hasSub_iff p out).mpr ⟨pre, r, by rw [← hpre, hdec, List.append_assoc]⟩
    rw [htrue] at h
    cases h

lemma urlMatch_eq_none (out : List Char)
    (hh : hasSub httpChars out = false) (hw : hasSub wwwChars out = false) :
    ∀ s, s <:+ out → urlMatch s = none := by
  intro s hs
  have h1 : stripLead httpChars s = none := stripLead_none_of_not_sub httpChars out s hh hs
  have h2 : stripLead wwwChars s = none := stripLead_none_of_not_sub wwwChars out s hw hs
  simp [urlMatch, wwwMatch, h1, h2]

lemma mentionMatch_eq_none (out : List Char)
    (h : ∀ c ∈ out, (isWordChar c || isSpaceChar c) = true) :
    ∀ s, s <:+ out → mentionMatch s = none := by
  intro s hs
  cases s with
  | nil => rfl
  | cons c r =>
    have hc : c ∈ out := hs.subset (List.mem_cons_self c r)
    have hne : ¬ c = '@' := by
      intro he
      rw [he] at hc
      exact absurd (h '@' hc) (by decide)
    simp [mentionMatch, hne]

/-- C7 (amended): the normalizer is idempotent on every input whose cleaned
form is stable under a second pass: all its characters are lowercase word
characters or spaces and not digits, it contains no `http`/`www` occurrence
(which the URL filter would delete on a second pass), its tokens are
lemmatization fixed points that the stopword/length filter keeps, and it is
the single-space join of its tokens. -/
theorem clean_text_idempotent_of_stable (lem : List Char → List Char) (x : List Char)
    (hchars : ∀ c ∈ clean_text lem x,
      c.toLower = c ∧ (isWordChar c || isSpaceChar c) = true ∧ c.isDigit = false)
    (hhttp : hasSub httpChars (clean_text lem x) = false)
    (hwww : hasSub wwwChars (clean_text lem x) = false)
    (htoks : ∀ t ∈ tokenize (clean_text lem x), lem t = t ∧ keepToken t = true)
    (hjoin : joinSp (tokenize (clean_text lem x)) = clean_text lem x) :
    clean_text lem (clean_text lem x) = clean_text lem x := by
  set out := clean_text lem x with hout
  have s1 : out.map Char.toLower = out :=
    map_id_of_fix _ out (fun c hc => (hchars c hc).1)
  have s2 : scrub urlMatch out = out :=
    scrub_eq_self urlMatch out (urlMatch_eq_none out hhttp hwww)
  have s3 : scrub mentionMatch out = out :=
    scrub_eq_self mentionMatch out
      (mentionMatch_eq_none out (fun c hc => (hchars c hc).2.1))
  have s4 : stripHash out = out := by
    apply List.filter_eq_self.mpr
    intro c hc
    by_cases h4 : c = '#'
    · rw [h4] at hc
      exact absurd (hchars '#' hc).2.1 (by decide)
    · simp [h4]
  have s5 : punctToSpace out = out := by
    apply map_id_of_fix
    intro c hc
    simp [(hchars c hc).2.1]
  have s6 : stripDigits out = out := by
    apply List.filter_eq_self.mpr
    intro c hc
    simp [(hchars c hc).2.2]
  have s7 : (tokenize out).filter keepToken = tokenize out :=
    List.filter_eq_self.mpr (fun t ht => (htoks t ht).2)
  have s8 : (tokenize out).map lem = tokenize out :=
    map_id_of_fix lem (tokenize out) (fun t ht => (htoks t ht).1)
  show clean_text lem out = out
  unfold clean_text demojize
  rw [s1, s2, s3, s4, s5, s6, s7, s8]
  exact hjoin

/-- C7 counterexample: `clean_text` is not idempotent.  On `"ht1tpfoo"` the
digit removal (which runs after URL removal) manufactures the token
`httpfoo`, which the URL filter `http\S+` deletes on a second pass.  The
lemmatizer is instantiated with the identity, which is exactly WordNet's
behaviour on `httpfoo` (a word matching none of its morphy rules). -/
theorem clean_text_not_idempotent_cex :
    clean_text (fun t => t) (clean_text (fun t => t) ("ht1tpfoo".data))
      ≠ clean_text (fun t => t) ("ht1tpfoo".data) := by decide

/-- Witness for the amended C7 on an ordinary conflict-domain text. -/
theorem clean_text_idempotent_witness :
    clean_text (fun t => t) (clean_text (fun t => t) ("conflict unrest escalating".data))
      = clean_text (fun t => t) ("conflict unrest escalating".data) :=
  clean_text_idempotent_of_stable (fun t => t) ("conflict unrest escalating".data)
    (by decide) (by decide) (by decide) (by decide) (by decide)

/-- C8 counterexample: `"ab"` is not in the stopword set, yet the filter
drops it (its length is ≤ 2), so a token outside the stopword set does not
always survive. -/
theorem token_filter_short_token_cex :
    stop_words.contains ("ab") = false
    ∧ clean_text (fun t => t) ("ab".data) = [] := by decide

/-- C8 (amended): a token survives the filter iff it is outside the stopword
set (NLTK English stopwords minus the conflict allowlist) and is longer than
two characters; allowlist words are never in the stopword set (they are
subtracted at initialization), so they survive whenever longer than two
characters, while every token of length ≤ 2 is dropped, stopword or not. -/
theorem token_filter_iff :
    (∀ t : List Char, keepToken t = true ↔
      (stop_words.contains (String.mk t) = false ∧ 2 < t.length))
    ∧ (∀ w ∈ conflict_keywords, stop_words.contains w = false) := by
  constructor
  · intro t
    simp [keepToken]
  · decide

/-- Witness for the amended C8 at the allowlist token `war`. -/
theorem token_filter_iff_witness :
    (keepToken ("war".data) = true ↔
      (stop_words.contains (String.mk ("war".data)) = false ∧ 2 < ("war".data).length))
    ∧ stop_words.contains ("war") = false :=
  ⟨token_filter_iff.1 ("war".data), token_filter_iff.2 ("war") (by decide)⟩

end CEWS
